import Mathlib

/-
  Shallow embedding of the uscsi crate (src/lib.rs): a binding that issues
  SCSI commands through the illumos USCSI passthrough ioctl.

  Modelling conventions:
  - Buffer slices are represented by their address and length as natural
    numbers, since the code only ever reads as_ptr() and len() of a slice.
  - Machine integers: c_uchar is a Nat reduced mod 256 at the points where
    the code performs an `as c_uchar` cast; c_short is an Int produced by
    the two-s-complement reinterpretation of a u16; c_int flag words stay
    Nat because every flag constant and OR-combination is below 2^31.
  - The ioctl system call is modelled by an oracle function (a parameter)
    that, given the fd, the request code and the submitted descriptor,
    yields the kernel outputs the code observes afterwards: the return
    value of ioctl, the kernel-filled resid and rqresid fields, and the
    errno that last_os_error would report on failure.
  - usize and uintptr_t are 64-bit on the target, so `u64 as usize` and
    `c_uchar as usize` are identities.
-/

namespace Uscsi

/-- USCSIIOC control-code base, from `0x04 << 8` in the source. -/
def USCSIIOC : Nat := 0x04 <<< 8

/-- Control code for command submission, `USCSIIOC | 201`. -/
def USCSICMD : Nat := USCSIIOC ||| 201

/-- Control code for the max-transfer query, `USCSIIOC | 202`. -/
def USCSIMAXXFER : Nat := USCSIIOC ||| 202

/-- The bitflags-generated Flags newtype over c_int: a raw bits word. -/
structure Flags where
  bits : Nat
deriving DecidableEq, Repr

def Flags.SILENT : Flags := ⟨0x00000001⟩

def Flags.DIAGNOSE : Flags := ⟨0x00000002⟩

def Flags.ISOLATE : Flags := ⟨0x00000004⟩

def Flags.READ : Flags := ⟨0x00000008⟩

def Flags.WRITE : Flags := ⟨0x00000000⟩

def Flags.RESET : Flags := ⟨0x00004000⟩

def Flags.RESET_ALL : Flags := ⟨0x00008000⟩

def Flags.RQENABLE : Flags := ⟨0x00010000⟩

def Flags.RENEGOT : Flags := ⟨0x00020000⟩

def Flags.RESET_LUN : Flags := ⟨0x00040000⟩

def Flags.PATH_INSTANCE : Flags := ⟨0x00080000⟩

/-- The `|` operator that bitflags derives: bitwise OR of the raw words. -/
def Flags.union (a b : Flags) : Flags := ⟨a.bits ||| b.bits⟩

/-- Combination of a list of flags with `|`, starting from the empty set
(raw value 0), as a caller would build a flag subset. -/
def flagsOfList (l : List Flags) : Flags := l.foldr Flags.union ⟨0⟩

/-- The eleven named flag constants of the bitflags block. -/
def namedFlags : List Flags :=
  [Flags.SILENT, Flags.DIAGNOSE, Flags.ISOLATE, Flags.READ, Flags.WRITE,
   Flags.RESET, Flags.RESET_ALL, Flags.RQENABLE, Flags.RENEGOT,
   Flags.RESET_LUN, Flags.PATH_INSTANCE]

/-- Rust `u16 as i16`: two-s-complement reinterpretation of a 16-bit word. -/
def u16AsI16 (v : Nat) : Int :=
  if v < 32768 then (v : Int) else (v : Int) - 65536

/-- Rust `as c_uchar` on an unsigned length: keep the low 8 bits. -/
def asU8 (n : Nat) : Nat := n % 256

/-- The uscsi_cmd structure (struct UScsiCmd in the source), with addresses
and sizes as Nat and the two signed 16-bit fields as Int. -/
structure UScsiCmd where
  flags : Nat
  status : Int
  timeout : Int
  cdb : Nat
  bufaddr : Nat
  buflen : Nat
  resid : Nat
  cdblen : Nat
  rqlen : Nat
  rqstatus : Nat
  rqresid : Nat
  rqbuf : Nat
  path_instance : Nat
deriving DecidableEq, Repr

/-- The derived Default for UScsiCmd: every numeric field zero. -/
def UScsiCmd.default : UScsiCmd := ⟨0, 0, 0, 0, 0, 0, 0, 0, 0, 0, 0, 0, 0⟩

/-- Kernel outputs of one USCSICMD ioctl that the code observes: the ioctl
return value, the kernel-filled resid and rqresid descriptor fields, and
the errno reported by last_os_error. -/
structure CmdResult where
  rc : Int
  resid : Nat
  rqresid : Nat
  errno : Int
deriving DecidableEq, Repr

/-- Oracle for `ioctl(fd, req, &mut cmd)` on the command path: a function of
the fd, the request code and the submitted descriptor. -/
abbrev CmdKernel := Nat → Nat → UScsiCmd → CmdResult

/-- Descriptor built by `common` (source lines 56-78): if a sense buffer is
supplied, OR RQENABLE into the flags and record its address and its length
cast to c_uchar; otherwise both are zero.  CDB length is cast to c_uchar,
the timeout is cast to i16, and the kernel-filled fields start at zero. -/
def mkCmd (cdbAddr cdbLen dataAddr dataLen : Nat) (sense : Option (Nat × Nat))
    (flags : Flags) (timeout : Nat) : UScsiCmd :=
  let flags2 := match sense with
    | some _ => Flags.union flags Flags.RQENABLE
    | none => flags
  let rq : Nat × Nat := match sense with
    | some s => (s.1, asU8 s.2)
    | none => (0, 0)
  { flags := flags2.bits
    status := 0
    timeout := u16AsI16 timeout
    cdb := cdbAddr
    bufaddr := dataAddr
    buflen := dataLen
    resid := 0
    cdblen := asU8 cdbLen
    rqlen := rq.2
    rqstatus := 0
    rqresid := 0
    rqbuf := rq.1
    path_instance := 0 }

/-- The ioctl dispatch and result mapping of `common` (source lines 80-83):
on return value 0, Ok of the kernel-filled (resid, rqresid as usize) pair,
otherwise Err of last_os_error. -/
def submit (kernel : CmdKernel) (fd : Nat) (cmd : UScsiCmd) :
    Except Int (Nat × Nat) :=
  let r := kernel fd USCSICMD cmd
  if r.rc = 0 then Except.ok (r.resid, r.rqresid) else Except.error r.errno

/-- `common`: build the descriptor and submit it. -/
def common (kernel : CmdKernel) (fd : Nat) (cdbAddr cdbLen dataAddr dataLen : Nat)
    (sense : Option (Nat × Nat)) (flags : Flags) (timeout : Nat) :
    Except Int (Nat × Nat) :=
  submit kernel fd (mkCmd cdbAddr cdbLen dataAddr dataLen sense flags timeout)

/-- Descriptor submitted by `read`: `common` is reached with the caller
flags OR-ed with READ and the data-buffer address and length. -/
def readCmd (cdbAddr cdbLen dataAddr dataLen : Nat) (sense : Option (Nat × Nat))
    (flags : Flags) (timeout : Nat) : UScsiCmd :=
  mkCmd cdbAddr cdbLen dataAddr dataLen sense (Flags.union flags Flags.READ) timeout

/-- `read` (source lines 86-99): OR READ into the flags and delegate to
`common` with the data-buffer address and length. -/
def read (kernel : CmdKernel) (fd : Nat) (cdbAddr cdbLen dataAddr dataLen : Nat)
    (sense : Option (Nat × Nat)) (flags : Flags) (timeout : Nat) :
    Except Int (Nat × Nat) :=
  common kernel fd cdbAddr cdbLen dataAddr dataLen sense
    (Flags.union flags Flags.READ) timeout

/-- Descriptor submitted by `write`: `common` is reached with the caller
flags OR-ed with WRITE (raw value 0). -/
def writeCmd (cdbAddr cdbLen dataAddr dataLen : Nat) (sense : Option (Nat × Nat))
    (flags : Flags) (timeout : Nat) : UScsiCmd :=
  mkCmd cdbAddr cdbLen dataAddr dataLen sense (Flags.union flags Flags.WRITE) timeout

/-- `write` (source lines 101-114): OR WRITE into the flags and delegate to
`common` with the data-buffer address and length. -/
def write (kernel : CmdKernel) (fd : Nat) (cdbAddr cdbLen dataAddr dataLen : Nat)
    (sense : Option (Nat × Nat)) (flags : Flags) (timeout : Nat) :
    Except Int (Nat × Nat) :=
  common kernel fd cdbAddr cdbLen dataAddr dataLen sense
    (Flags.union flags Flags.WRITE) timeout

/-- Descriptor submitted by `reset` (source lines 116-121): the Default
descriptor with only the flags field overwritten by RESET. -/
def resetCmd : UScsiCmd := { UScsiCmd.default with flags := Flags.RESET.bits }

/-- `reset` (source lines 116-126): submit `resetCmd` via USCSICMD and map
return value 0 to Ok (), anything else to Err of last_os_error. -/
def reset (kernel : CmdKernel) (fd : Nat) : Except Int Unit :=
  let r := kernel fd USCSICMD resetCmd
  if r.rc = 0 then Except.ok () else Except.error r.errno

/-- Kernel outputs of one USCSIMAXXFER ioctl: the ioctl return value, the
u64 value written into the bare payload, and the errno on failure. -/
structure XferResult where
  rc : Int
  val : Nat
  errno : Int
deriving DecidableEq, Repr

/-- Oracle for the max-transfer ioctl: a function of fd and request code,
with a bare u64 output payload instead of a descriptor. -/
abbrev XferKernel := Nat → Nat → XferResult

/-- `max_xfer` (source lines 128-137): issue USCSIMAXXFER with a u64
payload; on return value 0, Ok of the value the kernel wrote (`as usize`
is the identity on a 64-bit target), otherwise Err of last_os_error. -/
def max_xfer (kernel : XferKernel) (fd : Nat) : Except Int Nat :=
  let r := kernel fd USCSIMAXXFER
  if r.rc = 0 then Except.ok r.val else Except.error r.errno

/-- A USCSICMD kernel oracle that fails with errno 22. -/
def kernelFail : CmdKernel := fun _ _ _ => ⟨1, 7, 3, 22⟩

/-- A USCSICMD kernel oracle that succeeds with resid 7 and rqresid 3. -/
def kernelOk : CmdKernel := fun _ _ _ => ⟨0, 7, 3, 22⟩

/-- A USCSIMAXXFER kernel oracle that succeeds writing 4096. -/
def xferOk : XferKernel := fun _ _ => ⟨0, 4096, 22⟩

/-- A USCSIMAXXFER kernel oracle that fails with errno 5. -/
def xferFail : XferKernel := fun _ _ => ⟨-1, 4096, 5⟩

/-- C1 counterexample: a caller who passes the READ flag to `write` gets a
submitted descriptor whose READ bit (bit 3) is set, because OR with WRITE
(raw value 0) changes nothing; the claim that write always clears the READ
bit is therefore false. -/
theorem C1_counterexample :
    Nat.testBit (writeCmd 16 6 4096 512 none Flags.READ 30).flags 3 = true := by
  decide

/-- C1 (amended): `write` ORs in WRITE, whose raw value is 0, so the
submitted descriptor carries exactly the caller direction bits: its READ
bit equals the caller READ bit, and is clear only when the caller left
READ clear; `write` submits precisely this descriptor. -/
theorem C1_write_read_bit :
    (∀ (cdbAddr cdbLen dataAddr dataLen : Nat) (sense : Option (Nat × Nat))
       (flags : Flags) (timeout : Nat),
      Nat.testBit (writeCmd cdbAddr cdbLen dataAddr dataLen sense flags timeout).flags 3
        = Nat.testBit flags.bits 3) ∧
    (∀ (kernel : CmdKernel) (fd cdbAddr cdbLen dataAddr dataLen : Nat)
       (sense : Option (Nat × Nat)) (flags : Flags) (timeout : Nat),
      write kernel fd cdbAddr cdbLen dataAddr dataLen sense flags timeout
        = submit kernel fd (writeCmd cdbAddr cdbLen dataAddr dataLen sense flags timeout)) := by
  constructor
  · intro cdbAddr cdbLen dataAddr dataLen sense flags timeout
    cases sense <;>
      simp [writeCmd, mkCmd, Flags.union, Flags.WRITE, Flags.RQENABLE,
        Nat.testBit_lor, show Nat.testBit 0 3 = false from rfl,
        show Nat.testBit 65536 3 = false from rfl]
  · intro kernel fd cdbAddr cdbLen dataAddr dataLen sense flags timeout
    rfl

/-- C2 counterexample: a 300-byte CDB gives cdblen 44, not 255, because the
Rust cast to c_uchar keeps the low 8 bits (300 mod 256 = 44) instead of
clamping at 255. -/
theorem C2_counterexample :
    (mkCmd 16 300 0 0 none Flags.WRITE 10).cdblen = 44 ∧
    (mkCmd 16 300 0 0 none Flags.WRITE 10).cdblen ≠ 255 := by
  decide

/-- C2 (amended): for a CDB slice of 300 bytes the cdblen field of the
submitted descriptor equals 44: the length is reduced modulo 256 when it
exceeds 255, not truncated to 255. -/
theorem C2_cdblen_300 :
    ∀ (cdbAddr dataAddr dataLen : Nat) (sense : Option (Nat × Nat))
      (flags : Flags) (timeout : Nat),
      (mkCmd cdbAddr 300 dataAddr dataLen sense flags timeout).cdblen = 44 := by
  intro cdbAddr dataAddr dataLen sense flags timeout
  cases sense <;> rfl

/-- C3 counterexample: with a 256-byte sense buffer the submitted rqlen is
0, not the buffer length 256, so the claim that rqlen always equals the
sense-buffer length is false. -/
theorem C3_counterexample :
    (mkCmd 16 6 0 0 (some (4096, 256)) Flags.WRITE 10).rqlen = 0 ∧
    (mkCmd 16 6 0 0 (some (4096, 256)) Flags.WRITE 10).rqlen ≠ 256 := by
  decide

/-- C3 (amended): supplying a sense buffer sets the RQENABLE bit (bit 16)
of the submitted descriptor and stores the buffer address in rqbuf and the
buffer length reduced modulo 256 in rqlen; supplying none leaves rqbuf and
rqlen zero and the flags field exactly the caller-supplied raw flags. -/
theorem C3_sense_fields :
    (∀ (cdbAddr cdbLen dataAddr dataLen a l : Nat) (flags : Flags) (timeout : Nat),
      Nat.testBit (mkCmd cdbAddr cdbLen dataAddr dataLen (some (a, l)) flags timeout).flags 16 = true ∧
      (mkCmd cdbAddr cdbLen dataAddr dataLen (some (a, l)) flags timeout).rqbuf = a ∧
      (mkCmd cdbAddr cdbLen dataAddr dataLen (some (a, l)) flags timeout).rqlen = l % 256) ∧
    (∀ (cdbAddr cdbLen dataAddr dataLen : Nat) (flags : Flags) (timeout : Nat),
      (mkCmd cdbAddr cdbLen dataAddr dataLen none flags timeout).rqbuf = 0 ∧
      (mkCmd cdbAddr cdbLen dataAddr dataLen none flags timeout).rqlen = 0 ∧
      (mkCmd cdbAddr cdbLen dataAddr dataLen none flags timeout).flags = flags.bits) := by
  constructor
  · intro cdbAddr cdbLen dataAddr dataLen a l flags timeout
    refine ⟨?_, rfl, rfl⟩
    simp [mkCmd, Flags.union, Flags.RQENABLE, Nat.testBit_lor,
      show Nat.testBit 65536 16 = true from rfl]
  · intro cdbAddr cdbLen dataAddr dataLen flags timeout
    exact ⟨rfl, rfl, rfl⟩

/-- C4: for every submission via read or write, the call returns Ok of the
kernel-filled (resid, rqresid) pair exactly when the ioctl return value is
0, and otherwise returns Err of the last recorded OS error code, exposing
nothing else. -/
theorem C4_result_mapping :
    ∀ (kernel : CmdKernel) (fd cdbAddr cdbLen dataAddr dataLen : Nat)
      (sense : Option (Nat × Nat)) (flags : Flags) (timeout : Nat),
      ((read kernel fd cdbAddr cdbLen dataAddr dataLen sense flags timeout
          = Except.ok ((kernel fd USCSICMD (readCmd cdbAddr cdbLen dataAddr dataLen sense flags timeout)).resid,
              (kernel fd USCSICMD (readCmd cdbAddr cdbLen dataAddr dataLen sense flags timeout)).rqresid)
        ↔ (kernel fd USCSICMD (readCmd cdbAddr cdbLen dataAddr dataLen sense flags timeout)).rc = 0) ∧
       ((kernel fd USCSICMD (readCmd cdbAddr cdbLen dataAddr dataLen sense flags timeout)).rc ≠ 0 →
          read kernel fd cdbAddr cdbLen dataAddr dataLen sense flags timeout
            = Except.error (kernel fd USCSICMD (readCmd cdbAddr cdbLen dataAddr dataLen sense flags timeout)).errno)) ∧
      ((write kernel fd cdbAddr cdbLen dataAddr dataLen sense flags timeout
          = Except.ok ((kernel fd USCSICMD (writeCmd cdbAddr cdbLen dataAddr dataLen sense flags timeout)).resid,
              (kernel fd USCSICMD (writeCmd cdbAddr cdbLen dataAddr dataLen sense flags timeout)).rqresid)
        ↔ (kernel fd USCSICMD (writeCmd cdbAddr cdbLen dataAddr dataLen sense flags timeout)).rc = 0) ∧
       ((kernel fd USCSICMD (writeCmd cdbAddr cdbLen dataAddr dataLen sense flags timeout)).rc ≠ 0 →
          write kernel fd cdbAddr cdbLen dataAddr dataLen sense flags timeout
            = Except.error (kernel fd USCSICMD (writeCmd cdbAddr cdbLen dataAddr dataLen sense flags timeout)).errno)) := by
  intro kernel fd cdbAddr cdbLen dataAddr dataLen sense flags timeout
  simp only [read, write, common, submit, readCmd, writeCmd]
  constructor
  · constructor
    · by_cases h : (kernel fd USCSICMD
          (mkCmd cdbAddr cdbLen dataAddr dataLen sense (Flags.union flags Flags.READ) timeout)).rc = 0 <;>
        simp [h]
    · intro h
      simp [h]
  · constructor
    · by_cases h : (kernel fd USCSICMD
          (mkCmd cdbAddr cdbLen dataAddr dataLen sense (Flags.union flags Flags.WRITE) timeout)).rc = 0 <;>
        simp [h]
    · intro h
      simp [h]

/-- C4 witness: at a concrete failing kernel oracle (return value 1, errno
22), read and write both return Err 22. -/
theorem C4_witness :
    read kernelFail 5 16 6 4096 512 none Flags.SILENT 30 = Except.error 22 ∧
    write kernelFail 5 16 6 4096 512 none Flags.SILENT 30 = Except.error 22 :=
  ⟨((C4_result_mapping kernelFail 5 16 6 4096 512 none Flags.SILENT 30).1).2 (by decide),
   ((C4_result_mapping kernelFail 5 16 6 4096 512 none Flags.SILENT 30).2).2 (by decide)⟩

/-- C5: the descriptor submitted by `read` always has the READ bit (bit 3)
set, whatever the caller flags, and carries the data-buffer address and
length in bufaddr and buflen; `read` submits precisely this descriptor. -/
theorem C5_read_descriptor :
    (∀ (cdbAddr cdbLen dataAddr dataLen : Nat) (sense : Option (Nat × Nat))
       (flags : Flags) (timeout : Nat),
      Nat.testBit (readCmd cdbAddr cdbLen dataAddr dataLen sense flags timeout).flags 3 = true ∧
      (readCmd cdbAddr cdbLen dataAddr dataLen sense flags timeout).bufaddr = dataAddr ∧
      (readCmd cdbAddr cdbLen dataAddr dataLen sense flags timeout).buflen = dataLen) ∧
    (∀ (kernel : CmdKernel) (fd cdbAddr cdbLen dataAddr dataLen : Nat)
       (sense : Option (Nat × Nat)) (flags : Flags) (timeout : Nat),
      read kernel fd cdbAddr cdbLen dataAddr dataLen sense flags timeout
        = submit kernel fd (readCmd cdbAddr cdbLen dataAddr dataLen sense flags timeout)) := by
  constructor
  · intro cdbAddr cdbLen dataAddr dataLen sense flags timeout
    refine ⟨?_, ?_, ?_⟩
    · cases sense <;>
        simp [readCmd, mkCmd, Flags.union, Flags.READ, Flags.RQENABLE,
          Nat.testBit_lor, show Nat.testBit 8 3 = true from rfl]
    · cases sense <;> rfl
    · cases sense <;> rfl
  · intro kernel fd cdbAddr cdbLen dataAddr dataLen sense flags timeout
    rfl

/-- C6: the descriptor submitted by `reset` has every field zero except the
flags field, which is exactly the RESET bit 0x4000. -/
theorem C6_reset_descriptor :
    resetCmd.flags = Flags.RESET.bits ∧ Flags.RESET.bits = 0x4000 ∧
    resetCmd.status = 0 ∧ resetCmd.timeout = 0 ∧ resetCmd.cdb = 0 ∧
    resetCmd.cdblen = 0 ∧ resetCmd.bufaddr = 0 ∧ resetCmd.buflen = 0 ∧
    resetCmd.resid = 0 ∧ resetCmd.rqbuf = 0 ∧ resetCmd.rqlen = 0 ∧
    resetCmd.rqstatus = 0 ∧ resetCmd.rqresid = 0 ∧
    resetCmd.path_instance = 0 := by
  decide

/-- C7: for every timeout input below 65536, the stored timeout field is
the two-s-complement reinterpretation of that 16-bit value: it lies in
[-32768, 32768) and is congruent to the input modulo 65536; for inputs at
or above 32768 it is negative. -/
theorem C7_timeout_i16 :
    ∀ (cdbAddr cdbLen dataAddr dataLen : Nat) (sense : Option (Nat × Nat))
      (flags : Flags) (v : Nat), v < 65536 →
      (-32768 ≤ (mkCmd cdbAddr cdbLen dataAddr dataLen sense flags v).timeout ∧
       (mkCmd cdbAddr cdbLen dataAddr dataLen sense flags v).timeout < 32768 ∧
       (mkCmd cdbAddr cdbLen dataAddr dataLen sense flags v).timeout % 65536 = (v : Int)) ∧
      (32768 ≤ v → (mkCmd cdbAddr cdbLen dataAddr dataLen sense flags v).timeout < 0) := by
  intro cdbAddr cdbLen dataAddr dataLen sense flags v hv
  have ht : (mkCmd cdbAddr cdbLen dataAddr dataLen sense flags v).timeout = u16AsI16 v := by
    cases sense <;> rfl
  rw [ht]
  unfold u16AsI16
  split_ifs with h <;> constructor <;> try constructor
  all_goals omega

/-- C7 witness: at the concrete input 40000, the stored timeout field is
-25536: in range, congruent to 40000 modulo 65536, and negative. -/
theorem C7_witness :
    ((-32768 ≤ (mkCmd 16 6 4096 512 none Flags.SILENT 40000).timeout ∧
      (mkCmd 16 6 4096 512 none Flags.SILENT 40000).timeout < 32768 ∧
      (mkCmd 16 6 4096 512 none Flags.SILENT 40000).timeout % 65536 = (40000 : Int)) ∧
     (mkCmd 16 6 4096 512 none Flags.SILENT 40000).timeout < 0) ∧
    (mkCmd 16 6 4096 512 none Flags.SILENT 40000).timeout = -25536 :=
  ⟨⟨(C7_timeout_i16 16 6 4096 512 none Flags.SILENT 40000 (by decide)).1,
    (C7_timeout_i16 16 6 4096 512 none Flags.SILENT 40000 (by decide)).2 (by decide)⟩,
   by decide⟩

/-- C8: combining any list of flags with the OR operator yields the bitwise
OR of the raw values of its members, and OR-combining any flag set with
WRITE (raw value 0) is the identity. -/
theorem C8_flag_or :
    (∀ l : List Flags, (flagsOfList l).bits = l.foldr (fun f acc => f.bits ||| acc) 0) ∧
    (∀ a : Flags, Flags.union a Flags.WRITE = a) := by
  constructor
  · intro l
    induction l with
    | nil => rfl
    | cons f rest ih =>
      show (Flags.union f (flagsOfList rest)).bits = f.bits ||| rest.foldr (fun f acc => f.bits ||| acc) 0
      rw [Flags.union, ← ih]
  · intro a
    cases a with
    | mk b => simp [Flags.union, Flags.WRITE]

/-- C9: the max-transfer query uses a control code distinct from the
command-submission code and a bare 64-bit payload; on ioctl return value 0
it returns Ok of exactly the value the kernel wrote into that payload, and
otherwise Err of the last recorded OS error code. -/
theorem C9_max_xfer :
    USCSIMAXXFER ≠ USCSICMD ∧
    ∀ (kernel : XferKernel) (fd : Nat),
      ((kernel fd USCSIMAXXFER).rc = 0 →
        max_xfer kernel fd = Except.ok (kernel fd USCSIMAXXFER).val) ∧
      ((kernel fd USCSIMAXXFER).rc ≠ 0 →
        max_xfer kernel fd = Except.error (kernel fd USCSIMAXXFER).errno) := by
  refine ⟨by decide, ?_⟩
  intro kernel fd
  constructor <;> intro h <;> simp [max_xfer, h]

/-- C9 witness: a succeeding oracle writing 4096 yields Ok 4096, and a
failing oracle with errno 5 yields Err 5. -/
theorem C9_witness :
    max_xfer xferOk 3 = Except.ok 4096 ∧ max_xfer xferFail 3 = Except.error 5 :=
  ⟨(C9_max_xfer.2 xferOk 3).1 (by decide), (C9_max_xfer.2 xferFail 3).2 (by decide)⟩

/-- C10: with a sense buffer of exactly 256 bytes, the submitted rqlen is 0
(the same rqlen as when no sense buffer is supplied), while the RQENABLE
bit (bit 16) is still forced on and rqbuf still holds the buffer
address. -/
theorem C10_sense_256 :
    ∀ (cdbAddr cdbLen dataAddr dataLen a : Nat) (flags : Flags) (timeout : Nat),
      (mkCmd cdbAddr cdbLen dataAddr dataLen (some (a, 256)) flags timeout).rqlen = 0 ∧
      (mkCmd cdbAddr cdbLen dataAddr dataLen (some (a, 256)) flags timeout).rqlen
        = (mkCmd cdbAddr cdbLen dataAddr dataLen none flags timeout).rqlen ∧
      Nat.testBit (mkCmd cdbAddr cdbLen dataAddr dataLen (some (a, 256)) flags timeout).flags 16 = true ∧
      (mkCmd cdbAddr cdbLen dataAddr dataLen (some (a, 256)) flags timeout).rqbuf = a := by
  intro cdbAddr cdbLen dataAddr dataLen a flags timeout
  refine ⟨by simp [mkCmd, asU8], by simp [mkCmd, asU8], ?_, by simp [mkCmd]⟩
  simp [mkCmd, Flags.union, Flags.RQENABLE, Nat.testBit_lor,
    show Nat.testBit 65536 16 = true from rfl]

end Uscsi
